import Mathlib

/-!
Shallow embedding of the decision core of the PRISM hexapod edge firmware
(src/services/hexapod-edge/firmware/src/main.cpp): risk discretization,
the adaptive policy engine (emergency state machine, interval tiers,
sleep-duration computation, downlink command handling) and the uplink
frame encoder.  C `float`/`double` quantities that only enter comparisons
and exact scaling are modelled as rationals; `uint32_t` wraparound is made
explicit as `% 2^32` where the C arithmetic can wrap (the `millis() -
lastTransmission` subtraction); stored intervals never exceed 2^32 in the
program, so they are plain naturals.
-/

namespace Prism

/-- `EdgeAIResult` (main.cpp lines 72-77): anomaly score, risk level
(0=low, 1=medium, 2=high, 3=critical), confidence, timestamp. -/
structure EdgeAIResult where
  anomaly_score : ℚ
  risk_level : Nat
  confidence : ℚ
  timestamp : Nat
  deriving Repr, DecidableEq

/-- The process-wide policy state of main.cpp lines 83-86:
`lastTransmission`, `transmissionInterval`, `emergencyMode`,
`failedTransmissions`. -/
structure PolicyState where
  transmissionInterval : Nat
  lastTransmission : Nat
  emergencyMode : Bool
  failedTransmissions : Nat
  deriving Repr, DecidableEq

/-- Risk-level discretization of the anomaly score, from `runEdgeAI`
(main.cpp lines 278-281). -/
def riskLevelOfScore (anomaly_score : ℚ) : Nat :=
  if anomaly_score < 3/10 then 0
  else if anomaly_score < 6/10 then 1
  else if anomaly_score < 8/10 then 2
  else 3

/-- Result of one `processLocalDecisions` call: the updated policy state,
whether the emergency-entry side effects (serial print, LED flashing,
lines 297-305) fired this cycle, and whether the critical-battery deep
sleep (lines 328-331) was requested. -/
structure DecisionOutcome where
  state : PolicyState
  emergencyEntryAlert : Bool
  deepSleepRequest : Bool
  deriving Repr, DecidableEq

/-- `processLocalDecisions` (main.cpp lines 291-332).  Inputs: the AI
result, `currentReading.battery_level`, `currentReading.battery_voltage`,
and the incoming policy state.  The emergency transition block
(293-311) runs first, then the tier computation (314-320)
unconditionally overwrites `transmissionInterval`, then the low-battery
doubling (323-325), then the critical-battery check (328-331). -/
def processLocalDecisions (ai : EdgeAIResult) (battery_level : Nat)
    (battery_voltage : ℚ) (st : PolicyState) : DecisionOutcome :=
  -- Emergency mode activation / deactivation (lines 293-311)
  let stAlert :=
    if ai.risk_level = 3 ∧ ai.confidence > 7/10 then
      if st.emergencyMode then (st, false)
      else ({ st with emergencyMode := true, transmissionInterval := 1 * 60 * 1000 }, true)
    else if st.emergencyMode ∧ ai.risk_level = 0 then
      ({ st with emergencyMode := false, transmissionInterval := 30 * 60 * 1000 }, false)
    else (st, false)
  let st1 := stAlert.1
  -- Adjust transmission interval based on risk (lines 314-320)
  let st2 :=
    if ai.risk_level ≥ 2 then
      { st1 with transmissionInterval := 5 * 60 * 1000 }
    else if ai.risk_level = 1 then
      { st1 with transmissionInterval := 15 * 60 * 1000 }
    else
      { st1 with transmissionInterval := 30 * 60 * 1000 }
  -- Battery-based adjustment (lines 323-325)
  let st3 :=
    if battery_level < 20 then
      { st2 with transmissionInterval := st2.transmissionInterval * 2 }
    else st2
  -- Critical battery check (lines 328-331): enterDeepSleep(4*60*60)
  { state := st3, emergencyEntryAlert := stAlert.2,
    deepSleepRequest := battery_voltage < 3 }

/-- The risk-tier interval selection of main.cpp lines 314-320 in
isolation: risk ≥ 2 → 5 min, risk 1 → 15 min, otherwise 30 min (in
milliseconds). -/
def tierInterval (risk_level : Nat) : Nat :=
  if risk_level ≥ 2 then 5 * 60 * 1000
  else if risk_level = 1 then 15 * 60 * 1000
  else 30 * 60 * 1000

/-- The `uint32_t timeSinceLastTx = millis() - lastTransmission` of
main.cpp line 335: unsigned 32-bit wraparound subtraction. -/
def timeSinceLastTx (now : Nat) (st : PolicyState) : Nat :=
  (now % 2^32 + 2^32 - st.lastTransmission % 2^32) % 2^32

/-- `shouldTransmitData` (main.cpp lines 334-347). -/
def shouldTransmitData (now : Nat) (risk_level : Nat) (st : PolicyState) : Bool :=
  if st.emergencyMode then true
  else if timeSinceLastTx now st ≥ st.transmissionInterval then true
  else if risk_level ≥ 2 then true
  else false

/-- `calculateSleepDuration` (main.cpp lines 409-435).  Returns
milliseconds.  The final `baseSleep *= 0.7` multiplies a `uint32_t` by a
`double` and truncates back; it is modelled as `* 7 / 10` in naturals
(exact for every value `baseSleep` can hold at that point in the
program).  The hour is derived from `millis()` as on line 428. -/
def calculateSleepDuration (risk_level battery_level : Nat) (millis : Nat) : Nat :=
  let baseSleep :=
    if risk_level = 3 then 30 * 1000
    else if risk_level = 2 then 2 * 60 * 1000
    else if risk_level = 1 then 5 * 60 * 1000
    else 15 * 60 * 1000
  -- lines 421-425: `if (battery_level < 20) ... else if (battery_level < 10) ...`
  let baseSleep :=
    if battery_level < 20 then baseSleep * 2
    else if battery_level < 10 then baseSleep * 4
    else baseSleep
  let hour := (millis / 3600000) % 24
  let isDaytime := 6 ≤ hour ∧ hour ≤ 18
  if isDaytime ∧ battery_level > 80 then baseSleep * 7 / 10
  else baseSleep

/-- `handleDownlinkCommand` (main.cpp lines 528-559).  The buffer is a
list of bytes (`uint8_t*`); a buffer shorter than 2 bytes is ignored.
Commands 0x03 (maintenance mode) and 0x04 (AI threshold) only print in
the source; the default branch logs the unknown command. -/
def handleDownlinkCommand (buffer : List Nat) (st : PolicyState) : PolicyState :=
  if buffer.length < 2 then st
  else
    let command := buffer.getD 0 0 % 256
    let value := buffer.getD 1 0 % 256
    if command = 1 then { st with transmissionInterval := value * 60 * 1000 }
    else if command = 2 then { st with lastTransmission := 0 }
    else if command = 3 then st
    else if command = 4 then st
    else st

/-! ## Frame codec (`prepareTxFrame`, main.cpp lines 349-407) -/

/-- The sensor snapshot fields consumed by `prepareTxFrame`
(`SensorData`, main.cpp lines 48-70).  The three position floats are
kept as their 32-bit IEEE-754 object representations (`memcpy` on lines
361-363 copies raw bytes); the analog measurements are rationals;
`signal_strength` is the signed `int8_t` RSSI. -/
structure SensorData where
  timestamp : Nat
  latitudeBits : Nat
  longitudeBits : Nat
  elevationBits : Nat
  tilt_x : ℚ
  tilt_y : ℚ
  tilt_z : ℚ
  accel_x : ℚ
  accel_y : ℚ
  accel_z : ℚ
  gyro_x : ℚ
  gyro_y : ℚ
  gyro_z : ℚ
  pore_pressure : ℚ
  temperature : ℚ
  humidity : ℚ
  strain_gauge : ℚ
  quality_flags : Nat
  battery_level : Nat
  signal_strength : Int
  deriving Repr, DecidableEq

/-- C truncation of a rational toward zero (the `(int16_t)(...)` and
`(uint16_t)(...)` casts discard the fractional part). -/
def ratTrunc (q : ℚ) : Int :=
  if 0 ≤ q then ⌊q⌋ else -⌊-q⌋

/-- Wrap an integer into the `int16_t` range [-32768, 32767]
(two's-complement wraparound on conversion). -/
def toInt16 (n : Int) : Int :=
  (n + 32768) % 65536 - 32768

/-- Big-endian bytes of a `uint32_t` value, as written by the four
shift-and-mask stores on main.cpp lines 355-358. -/
def u32be (x : Nat) : List Nat :=
  [x / 2^24 % 256, x / 2^16 % 256, x / 2^8 % 256, x % 256]

/-- The four bytes `memcpy` copies for one position float (main.cpp
lines 361-363): the object representation of the `float`, least
significant byte first on the little-endian ESP32. -/
def floatBytesLE (bits : Nat) : List Nat :=
  [bits % 256, bits / 2^8 % 256, bits / 2^16 % 256, bits / 2^24 % 256]

/-- Big-endian bytes of a 16-bit quantity as emitted by
`(m >> 8) & 0xFF` then `m & 0xFF` (main.cpp lines 383-384, 394-395,
398-399): the two bytes of the value's two's-complement
representation. -/
def bytes16be (m : Int) : List Nat :=
  [((m % 65536).toNat) / 256, ((m % 65536).toNat) % 256]

/-- The 13-element scaled `int16_t` measurement array of main.cpp lines
366-380, in source order. -/
def measurements (s : SensorData) : List Int :=
  [ toInt16 (ratTrunc (s.tilt_x * 1000)),
    toInt16 (ratTrunc (s.tilt_y * 1000)),
    toInt16 (ratTrunc (s.tilt_z * 1000)),
    toInt16 (ratTrunc (s.accel_x * 100)),
    toInt16 (ratTrunc (s.accel_y * 100)),
    toInt16 (ratTrunc (s.accel_z * 100)),
    toInt16 (ratTrunc (s.gyro_x * 1000)),
    toInt16 (ratTrunc (s.gyro_y * 1000)),
    toInt16 (ratTrunc (s.gyro_z * 1000)),
    toInt16 (ratTrunc s.pore_pressure),
    toInt16 (ratTrunc (s.temperature * 10)),
    toInt16 (ratTrunc s.humidity),
    toInt16 (ratTrunc s.strain_gauge) ]

/-- `prepareTxFrame` (main.cpp lines 349-407): the payload bytes in the
order the source writes them into `payload[index++]`.  The timestamp is
stored big-endian, the three position floats are raw `memcpy`s, the 13
measurements are big-endian `int16_t`, then quality flags, battery
level, `signal_strength + 128`, the scaled anomaly score (`uint16_t`,
big-endian), the risk level byte, the scaled confidence (`uint16_t`,
big-endian) and the emergency flag. -/
def prepareTxFrame (s : SensorData) (ai : EdgeAIResult)
    (emergencyMode : Bool) : List Nat :=
  u32be (s.timestamp % 2^32)
  ++ floatBytesLE s.latitudeBits
  ++ floatBytesLE s.longitudeBits
  ++ floatBytesLE s.elevationBits
  ++ (measurements s).flatMap bytes16be
  ++ [s.quality_flags % 256, s.battery_level % 256,
      ((s.signal_strength + 128) % 256).toNat]
  ++ bytes16be (ratTrunc (ai.anomaly_score * 1000))
  ++ [ai.risk_level % 256]
  ++ bytes16be (ratTrunc (ai.confidence * 1000))
  ++ [if emergencyMode then 1 else 0]

/-- Reassemble the big-endian `uint32` starting at offset `i` of a byte
list (decoder side of the timestamp field). -/
def decodeU32be (b : List Nat) (i : Nat) : Nat :=
  b.getD i 0 * 2^24 + b.getD (i+1) 0 * 2^16 + b.getD (i+2) 0 * 2^8 + b.getD (i+3) 0

/-- Reassemble the big-endian signed 16-bit value starting at offset `i`
of a byte list (decoder side of the scaled measurement fields). -/
def decodeI16be (b : List Nat) (i : Nat) : Int :=
  toInt16 (b.getD i 0 * 256 + b.getD (i+1) 0)

/-- Reassemble the big-endian unsigned 16-bit value starting at offset
`i` of a byte list (decoder side of the scaled anomaly-score and
confidence fields). -/
def decodeU16be (b : List Nat) (i : Nat) : Nat :=
  b.getD i 0 * 256 + b.getD (i+1) 0

/-! ## Helper lemmas -/

/-- The transmission interval at the end of `processLocalDecisions` is
always the risk-tier value, doubled when the battery is low: the tier
block at lines 314-320 runs every cycle and overwrites whatever the
emergency-transition block wrote. -/
lemma interval_spec (ai : EdgeAIResult) (battery : Nat) (voltage : ℚ) (st : PolicyState) :
    (processLocalDecisions ai battery voltage st).state.transmissionInterval
      = if battery < 20 then tierInterval ai.risk_level * 2 else tierInterval ai.risk_level := by
  simp only [processLocalDecisions, tierInterval, apply_ite Prod.fst,
    apply_ite PolicyState.transmissionInterval, ite_self]

/-- Characterization of the emergency flag after `processLocalDecisions`:
set by the entry condition, cleared by the exit condition, otherwise
unchanged. -/
lemma mode_spec (ai : EdgeAIResult) (battery : Nat) (voltage : ℚ) (st : PolicyState) :
    (processLocalDecisions ai battery voltage st).state.emergencyMode
      = if ai.risk_level = 3 ∧ ai.confidence > 7/10 then true
        else if st.emergencyMode ∧ ai.risk_level = 0 then false
        else st.emergencyMode := by
  simp only [processLocalDecisions, apply_ite Prod.fst,
    apply_ite PolicyState.emergencyMode, ite_self]
  by_cases hm : st.emergencyMode <;> simp [hm]

/-- The emergency-entry side effects (serial print, LED flashes) fire
exactly on the false-to-true transition of the emergency flag. -/
lemma alert_spec (ai : EdgeAIResult) (battery : Nat) (voltage : ℚ) (st : PolicyState) :
    (processLocalDecisions ai battery voltage st).emergencyEntryAlert = true
      ↔ ai.risk_level = 3 ∧ ai.confidence > 7/10 ∧ st.emergencyMode = false := by
  simp only [processLocalDecisions, apply_ite Prod.snd, ite_self]
  by_cases hc : ai.risk_level = 3 ∧ ai.confidence > 7/10 <;>
  by_cases hm : st.emergencyMode <;>
  by_cases h0 : st.emergencyMode ∧ ai.risk_level = 0 <;>
    simp [hc, hm, h0]

/-! ## Claim theorems -/

/-- C1 (counterexample): on a cycle that enters emergency mode
(risk 3, confidence 0.8, battery 50), `processLocalDecisions` ends with
`emergencyMode = true` but `transmissionInterval = 300000` (the 5-minute
risk tier), not the claimed fixed emergency value of 60000 ms: the tier
computation overwrites the emergency interval every cycle. -/
theorem C1_counterexample :
    (processLocalDecisions ⟨1/2, 3, 4/5, 0⟩ 50 (37/10) ⟨1800000, 0, false, 0⟩).state.emergencyMode = true
  ∧ (processLocalDecisions ⟨1/2, 3, 4/5, 0⟩ 50 (37/10) ⟨1800000, 0, false, 0⟩).state.transmissionInterval = 300000
  ∧ 300000 ≠ 60000 := by
  refine ⟨?_, ?_, by norm_num⟩
  · rw [mode_spec]; norm_num
  · rw [interval_spec]; norm_num [tierInterval]

/-- C1 (amended): while emergency mode is active after the
emergency-transition step, the transmission interval at the end of
`processLocalDecisions` is NOT the fixed 60000 ms emergency value but the
risk-tier value (5 min for risk ≥ 2, 15 min for risk 1, 30 min for
risk 0), doubled when `battery_level < 20`: the tier computation runs
every cycle and replaces the interval set at emergency entry. -/
theorem C1_tier_overrides_emergency_interval (ai : EdgeAIResult) (battery : Nat)
    (voltage : ℚ) (st : PolicyState)
    (_hm : (processLocalDecisions ai battery voltage st).state.emergencyMode = true) :
    (processLocalDecisions ai battery voltage st).state.transmissionInterval
      = if battery < 20 then tierInterval ai.risk_level * 2 else tierInterval ai.risk_level :=
  interval_spec ai battery voltage st

/-- C1 witness: the amended theorem applied to a concrete
emergency-entry cycle. -/
theorem C1_tier_overrides_witness :
    (processLocalDecisions ⟨1/2, 3, 4/5, 0⟩ 50 (37/10) ⟨1800000, 0, false, 0⟩).state.transmissionInterval
      = if 50 < 20 then tierInterval 3 * 2 else tierInterval 3 :=
  C1_tier_overrides_emergency_interval ⟨1/2, 3, 4/5, 0⟩ 50 (37/10) ⟨1800000, 0, false, 0⟩
    (by rw [mode_spec]; norm_num)

/-- C2 (code evaluated at the failing input): for risk 3, battery level
5 and hour 12 (uptime 43200000 ms), `calculateSleepDuration` returns
60000 ms (base 30 s doubled by the `battery_level < 20` branch), not the
120 s the claim requires: the `else if (battery_level < 10)` quadruple
branch is unreachable because `battery_level < 10` implies
`battery_level < 20`. -/
theorem C2_sleep_low_battery_band : calculateSleepDuration 3 5 43200000 = 60000 := by
  norm_num [calculateSleepDuration]

/-- C4: `shouldTransmitData` returns true exactly when emergency mode is
active, or the (wraparound) elapsed time since `lastTransmission` is at
least `transmissionInterval`, or the risk level is at least 2. -/
theorem C4_shouldTransmit_iff (now risk : Nat) (st : PolicyState) :
    shouldTransmitData now risk st = true ↔
      st.emergencyMode = true ∨ st.transmissionInterval ≤ timeSinceLastTx now st ∨ 2 ≤ risk := by
  unfold shouldTransmitData
  by_cases h1 : st.emergencyMode <;>
  by_cases h2 : st.transmissionInterval ≤ timeSinceLastTx now st <;>
  by_cases h3 : 2 ≤ risk <;>
    simp [h1, h2, h3]

/-- C5: emergency mode is entered (with its side effects) exactly when
`risk_level = 3` and `confidence > 0.7` strictly and the mode was not
already active; a risk-3 cycle with confidence exactly 0.7 leaves
emergency mode off. -/
theorem C5_entry_strict_and_edge (ai : EdgeAIResult) (battery : Nat) (voltage : ℚ) (st : PolicyState) :
    ((processLocalDecisions ai battery voltage st).emergencyEntryAlert = true
      ↔ ai.risk_level = 3 ∧ ai.confidence > 7/10 ∧ st.emergencyMode = false)
  ∧ (ai.risk_level = 3 → ai.confidence = 7/10 → st.emergencyMode = false →
      (processLocalDecisions ai battery voltage st).state.emergencyMode = false) := by
  refine ⟨alert_spec ai battery voltage st, ?_⟩
  intro h3 h7 hm
  have hc1 : ¬(ai.risk_level = 3 ∧ ai.confidence > 7/10) := by
    rintro ⟨-, hgt⟩; rw [h7] at hgt; exact lt_irrefl _ hgt
  have hc2 : ¬(st.emergencyMode ∧ ai.risk_level = 0) := by simp [hm]
  rw [mode_spec, if_neg hc1, if_neg hc2]
  exact hm

/-- C5 witness: a concrete risk-3 cycle with confidence exactly 0.7
stays out of emergency mode. -/
theorem C5_entry_witness :
    (processLocalDecisions ⟨1/2, 3, 7/10, 0⟩ 50 (37/10) ⟨1800000, 0, false, 0⟩).state.emergencyMode = false :=
  (C5_entry_strict_and_edge ⟨1/2, 3, 7/10, 0⟩ 50 (37/10) ⟨1800000, 0, false, 0⟩).2 rfl rfl rfl

/-- C6: while in emergency mode, the mode is cleared by
`processLocalDecisions` exactly when `risk_level = 0` (any confidence);
risk level 1 or 2 keeps it active. -/
theorem C6_exit_only_risk0 (ai : EdgeAIResult) (battery : Nat) (voltage : ℚ) (st : PolicyState)
    (hm : st.emergencyMode = true) :
    ((processLocalDecisions ai battery voltage st).state.emergencyMode = false ↔ ai.risk_level = 0)
  ∧ ((ai.risk_level = 1 ∨ ai.risk_level = 2) →
      (processLocalDecisions ai battery voltage st).state.emergencyMode = true) := by
  rw [mode_spec]
  constructor
  · by_cases hc : ai.risk_level = 3 ∧ ai.confidence > 7/10
    · simp [hc, hc.1, hm]
    · by_cases h0 : ai.risk_level = 0 <;> simp [hc, hm, h0]
  · intro h12
    have hc : ¬(ai.risk_level = 3 ∧ ai.confidence > 7/10) := by
      rcases h12 with h | h <;> simp [h]
    have h0 : ¬ai.risk_level = 0 := by
      rcases h12 with h | h <;> simp [h]
    simp [hc, hm, h0]

/-- C6 witness: a risk-1 cycle while in emergency mode keeps the mode
active. -/
theorem C6_exit_witness :
    (processLocalDecisions ⟨1/2, 1, 4/5, 0⟩ 50 (37/10) ⟨60000, 0, true, 0⟩).state.emergencyMode = true :=
  (C6_exit_only_risk0 ⟨1/2, 1, 4/5, 0⟩ 50 (37/10) ⟨60000, 0, true, 0⟩ rfl).2 (Or.inl rfl)

/-- C7: the low-battery doubling is applied after tier selection: a
non-emergency risk-0 cycle with battery level 15 ends with a 60-minute
interval (30 min tier × 2), and any cycle with battery level ≥ 20 ends
with the unmultiplied tier value. -/
theorem C7_doubling_after_tier (ai : EdgeAIResult) (battery : Nat) (voltage : ℚ) (st : PolicyState) :
    (st.emergencyMode = false → ai.risk_level = 0 → battery = 15 →
      (processLocalDecisions ai battery voltage st).state.transmissionInterval = 3600000)
  ∧ (20 ≤ battery →
      (processLocalDecisions ai battery voltage st).state.transmissionInterval = tierInterval ai.risk_level) := by
  constructor
  · intro hm h0 hb
    subst hb
    rw [interval_spec]
    norm_num [h0, tierInterval]
  · intro hb
    rw [interval_spec, if_neg (by omega)]

/-- C7 witness: concrete cycles for both parts (battery 15 doubles the
30-minute tier; battery 50 leaves the tier unmultiplied). -/
theorem C7_doubling_witness :
    (processLocalDecisions ⟨1/10, 0, 4/5, 0⟩ 15 (37/10) ⟨1800000, 0, false, 0⟩).state.transmissionInterval = 3600000
  ∧ (processLocalDecisions ⟨1/10, 0, 4/5, 0⟩ 50 (37/10) ⟨1800000, 0, false, 0⟩).state.transmissionInterval = tierInterval 0 :=
  ⟨(C7_doubling_after_tier ⟨1/10, 0, 4/5, 0⟩ 15 (37/10) ⟨1800000, 0, false, 0⟩).1 rfl rfl rfl,
   (C7_doubling_after_tier ⟨1/10, 0, 4/5, 0⟩ 50 (37/10) ⟨1800000, 0, false, 0⟩).2 (by norm_num)⟩

/-- C8: downlink command 0x01 with value byte v sets
`transmissionInterval` to exactly v × 60000 ms and changes nothing else,
and any buffer shorter than 2 bytes leaves the whole policy state
unchanged (and signals no error: the handler is total). -/
theorem C8_interval_command_and_short_buffer (v : Nat) (rest : List Nat) (st : PolicyState) (buf : List Nat) :
    (v < 256 → handleDownlinkCommand (1 :: v :: rest) st
        = { st with transmissionInterval := v * 60000 })
  ∧ (buf.length < 2 → handleDownlinkCommand buf st = st) := by
  constructor
  · intro hv
    have hmul : v * 60 * 1000 = v * 60000 := by ring
    simp [handleDownlinkCommand, Nat.mod_eq_of_lt hv, hmul]
  · intro h
    simp [handleDownlinkCommand, h]

/-- C8 witness: command 0x01 with value 10 yields exactly 600000 ms; a
1-byte buffer is a no-op. -/
theorem C8_interval_witness :
    handleDownlinkCommand [1, 10] ⟨1800000, 5, false, 2⟩ = ⟨600000, 5, false, 2⟩
  ∧ handleDownlinkCommand [7] ⟨1800000, 5, false, 2⟩ = ⟨1800000, 5, false, 2⟩ :=
  ⟨(C8_interval_command_and_short_buffer 10 [] ⟨1800000, 5, false, 2⟩ [7]).1 (by norm_num),
   (C8_interval_command_and_short_buffer 10 [] ⟨1800000, 5, false, 2⟩ [7]).2 (by norm_num)⟩

/-- C9: the risk-level discretization is low-inclusive on its
boundaries: [0, 0.3) → 0, [0.3, 0.6) → 1, [0.6, 0.8) → 2,
[0.8, 1] → 3. -/
theorem C9_risk_thresholds (q : ℚ) :
    (0 ≤ q → q < 3/10 → riskLevelOfScore q = 0)
  ∧ (3/10 ≤ q → q < 6/10 → riskLevelOfScore q = 1)
  ∧ (6/10 ≤ q → q < 8/10 → riskLevelOfScore q = 2)
  ∧ (8/10 ≤ q → q ≤ 1 → riskLevelOfScore q = 3) := by
  refine ⟨fun h1 h2 => ?_, fun h1 h2 => ?_, fun h1 h2 => ?_, fun h1 h2 => ?_⟩ <;>
    simp only [riskLevelOfScore]
  · rw [if_pos h2]
  · rw [if_neg (not_lt.mpr h1), if_pos h2]
  · rw [if_neg (not_lt.mpr (le_trans (by norm_num) h1)), if_neg (not_lt.mpr h1), if_pos h2]
  · rw [if_neg (not_lt.mpr (le_trans (by norm_num) h1)),
       if_neg (not_lt.mpr (le_trans (by norm_num) h1)), if_neg (not_lt.mpr h1)]

/-- C9 witness: scores exactly 0.3, 0.6 and 0.8 map to risk levels 1, 2
and 3. -/
theorem C9_thresholds_witness :
    riskLevelOfScore (3/10) = 1 ∧ riskLevelOfScore (6/10) = 2 ∧ riskLevelOfScore (8/10) = 3 :=
  ⟨(C9_risk_thresholds (3/10)).2.1 le_rfl (by norm_num),
   (C9_risk_thresholds (6/10)).2.2.1 le_rfl (by norm_num),
   (C9_risk_thresholds (8/10)).2.2.2 le_rfl (by norm_num)⟩

/-- C10: a downlink buffer of length ≥ 2 whose command byte is neither
0x01 nor 0x02 (including 0x03, 0x04 and every unrecognized byte) leaves
every field of the policy state unchanged. -/
theorem C10_other_commands_noop (buf : List Nat) (st : PolicyState)
    (hlen : 2 ≤ buf.length) (h1 : buf.getD 0 0 % 256 ≠ 1) (h2 : buf.getD 0 0 % 256 ≠ 2) :
    handleDownlinkCommand buf st = st := by
  simp only [handleDownlinkCommand]
  rw [if_neg (by omega), if_neg h1, if_neg h2]
  simp only [ite_self]

/-- C10 witness: the maintenance-mode command 0x03 is a policy-state
no-op. -/
theorem C10_noop_witness : handleDownlinkCommand [3, 9] ⟨1800000, 5, false, 2⟩ = ⟨1800000, 5, false, 2⟩ :=
  C10_other_commands_noop [3, 9] ⟨1800000, 5, false, 2⟩ (by norm_num) (by norm_num) (by norm_num)

/-- C3: for every snapshot and inference result the uplink frame is
exactly 51 bytes, in the order: big-endian timestamp (4 bytes), the
three raw position floats (12 bytes), the 13 scaled big-endian int16
measurements (26 bytes), quality flags, battery level, signal strength
offset by +128, the scaled anomaly score (big-endian u16), the risk
level byte, the scaled confidence (big-endian u16), and the emergency
flag byte. -/
theorem C3_frame_layout (s : SensorData) (ai : EdgeAIResult) (em : Bool) :
    (prepareTxFrame s ai em).length = 51
  ∧ decodeU32be (prepareTxFrame s ai em) 0 = s.timestamp % 2^32
  ∧ ((prepareTxFrame s ai em).drop 4).take 12
      = floatBytesLE s.latitudeBits ++ floatBytesLE s.longitudeBits ++ floatBytesLE s.elevationBits
  ∧ decodeI16be (prepareTxFrame s ai em) 16 = toInt16 (ratTrunc (s.tilt_x * 1000))
  ∧ decodeI16be (prepareTxFrame s ai em) 18 = toInt16 (ratTrunc (s.tilt_y * 1000))
  ∧ decodeI16be (prepareTxFrame s ai em) 20 = toInt16 (ratTrunc (s.tilt_z * 1000))
  ∧ decodeI16be (prepareTxFrame s ai em) 22 = toInt16 (ratTrunc (s.accel_x * 100))
  ∧ decodeI16be (prepareTxFrame s ai em) 24 = toInt16 (ratTrunc (s.accel_y * 100))
  ∧ decodeI16be (prepareTxFrame s ai em) 26 = toInt16 (ratTrunc (s.accel_z * 100))
  ∧ decodeI16be (prepareTxFrame s ai em) 28 = toInt16 (ratTrunc (s.gyro_x * 1000))
  ∧ decodeI16be (prepareTxFrame s ai em) 30 = toInt16 (ratTrunc (s.gyro_y * 1000))
  ∧ decodeI16be (prepareTxFrame s ai em) 32 = toInt16 (ratTrunc (s.gyro_z * 1000))
  ∧ decodeI16be (prepareTxFrame s ai em) 34 = toInt16 (ratTrunc (s.pore_pressure))
  ∧ decodeI16be (prepareTxFrame s ai em) 36 = toInt16 (ratTrunc (s.temperature * 10))
  ∧ decodeI16be (prepareTxFrame s ai em) 38 = toInt16 (ratTrunc (s.humidity))
  ∧ decodeI16be (prepareTxFrame s ai em) 40 = toInt16 (ratTrunc (s.strain_gauge))
  ∧ (prepareTxFrame s ai em).getD 42 0 = s.quality_flags % 256
  ∧ (prepareTxFrame s ai em).getD 43 0 = s.battery_level % 256
  ∧ (prepareTxFrame s ai em).getD 44 0 = ((s.signal_strength + 128) % 256).toNat
  ∧ decodeU16be (prepareTxFrame s ai em) 45 = (ratTrunc (ai.anomaly_score * 1000) % 65536).toNat
  ∧ (prepareTxFrame s ai em).getD 47 0 = ai.risk_level % 256
  ∧ decodeU16be (prepareTxFrame s ai em) 48 = (ratTrunc (ai.confidence * 1000) % 65536).toNat
  ∧ (prepareTxFrame s ai em).getD 50 0 = (if em then 1 else 0) := by
  refine ⟨?_, ?_, ?_, ?_, ?_, ?_, ?_, ?_, ?_, ?_, ?_, ?_, ?_, ?_, ?_, ?_, ?_, ?_, ?_, ?_, ?_, ?_, ?_⟩ <;>
    simp [prepareTxFrame, decodeU32be, decodeI16be, decodeU16be,
      u32be, floatBytesLE, measurements, bytes16be] <;>
    first
      | rfl
      | omega
      | (unfold toInt16; omega)

end Prism
